import Mathlib

/-!
Verification development for the global NDR+ pipeline
(`global_ndr_plus_pipeline.py`): a shallow embedding of the work-status
scheduler, the raster validator and scrubber, the unit runner, the retrying
store-access wrapper, the watershed-id codec, and the stitching aggregator
loop, together with theorems about their behaviour.

Conventions of the embedding:
* raster cell values are modelled as exact rationals (`ℚ`), with a separate
  constructor for non-finite values (NaN, plus or minus infinity), which the
  code only ever tests via `numpy.isfinite` before replacing them;
* filesystem existence is modelled by membership in a list of paths;
* the external effects of a loop iteration (thread start/join, directory
  removal, batched status updates, queue operations) are recorded as an
  explicit event trace in program order;
* Python strings handled character-wise (the watershed-id codec) are
  modelled as `List Char`.
-/

/-- Work-status constant `scheduled` (use when scheduled but no work done). -/
def SCHEDULED_STATUS : String := "scheduled"

/-- Work-status constant `computed` (use when computed but not stitched). -/
def COMPUTED_STATUS : String := "computed"

/-- Work-status constant `complete` (use when stitched and deleted). -/
def COMPLETE_STATUS : String := "complete"

/-- A raster cell value: either non-finite (NaN or an infinity), or a finite
value modelled as an exact rational. -/
inductive RVal where
  | nf : RVal
  | fin : ℚ → RVal
deriving DecidableEq

/-- Model of `numpy.isfinite` on a cell value. -/
def RVal.isFinite : RVal → Bool
  | .nf => false
  | .fin _ => true

/-- Default relative tolerance of `numpy.isclose` (1e-5). -/
def npDefaultRtol : ℚ := 1 / 100000

/-- Default absolute tolerance of `numpy.isclose` (1e-8). -/
def npDefaultAtol : ℚ := 1 / 100000000

/-- Model of `numpy.isclose(a, b, rtol=rtol, atol=atol)` on finite values:
true when the absolute difference is at most `atol + rtol * |b|`. -/
def npIsclose (a b rtol atol : ℚ) : Bool :=
  decide (|a - b| ≤ atol + rtol * |b|)

/-- Which of the three invalid conditions `detect_invalid_values` reported. -/
inductive InvalidReason where
  | nonFinite
  | closeToNodata
  | largeValue
deriving DecidableEq

/-- One block iteration of `detect_invalid_values`: the non-finite check,
then the close-to-nodata-but-not-equal check
(`numpy.isclose(block, nodata, rtol=rtol) & ~numpy.isclose(block, nodata)`,
the second call with numpy's default tolerances), then the large-magnitude
check excluding values default-close to nodata. `none` means the block is
clean. -/
def detectBlock (base_nodata : Option ℚ) (rtol max_abs : ℚ)
    (block : List RVal) : Option InvalidReason :=
  if block.any (fun v => !v.isFinite) then some InvalidReason.nonFinite
  else if (match base_nodata with
    | some nd => block.any (fun v => match v with
        | RVal.nf => false
        | RVal.fin q =>
            npIsclose q nd rtol npDefaultAtol &&
              !npIsclose q nd npDefaultRtol npDefaultAtol)
    | none => false) then some InvalidReason.closeToNodata
  else if block.any (fun v => match v with
    | RVal.nf => false
    | RVal.fin q =>
        decide (|q| ≥ max_abs) && (match base_nodata with
          | some nd => !npIsclose q nd npDefaultRtol npDefaultAtol
          | none => true)) then some InvalidReason.largeValue
  else none

/-- Model of `detect_invalid_values`: stream the raster block by block and
report the first offending condition; `none` models the Python return value
`True` (the raster is valid). -/
def detect_invalid_values : List (List RVal) → Option ℚ → ℚ → ℚ → Option InvalidReason
  | [], _, _, _ => none
  | b :: rest, base_nodata, rtol, max_abs =>
    match detectBlock base_nodata rtol max_abs b with
    | some r => some r
    | none => detect_invalid_values rest base_nodata rtol max_abs

/-- First stage of `_scrub_op` on one cell: a non-finite value is replaced by
the scrub nodata value and counted. -/
def scrubStage1 (scrub_nodata : ℚ) : RVal → ℚ × Nat
  | RVal.nf => (scrub_nodata, 1)
  | RVal.fin q => (q, 0)

/-- Second stage of `_scrub_op` on one cell: a magnitude at least `max_abs`
is replaced by the scrub nodata value and counted. -/
def scrubStage2 (scrub_nodata max_abs : ℚ) (q : ℚ) : ℚ × Nat :=
  if decide (|q| ≥ max_abs) = true then (scrub_nodata, 1) else (q, 0)

/-- Third stage of `_scrub_op` on one cell: a value `numpy.isclose` to the
scrub nodata value (with the caller's `rtol` and numpy's default `atol`) is
replaced by the scrub nodata value and counted; note this mask also counts
cells already exactly equal to the nodata value. -/
def scrubStage3 (scrub_nodata rtol : ℚ) (q : ℚ) : ℚ × Nat :=
  if npIsclose q scrub_nodata rtol npDefaultAtol = true
  then (scrub_nodata, 1) else (q, 0)

/-- The three stages of `_scrub_op` applied in program order to one cell,
returning the scrubbed value and the per-cell contribution to the
`non_finite_count`, `large_value_count` and `close_to_nodata` counters. -/
def scrubCell (scrub_nodata rtol max_abs : ℚ) (v : RVal) :
    RVal × Nat × Nat × Nat :=
  (RVal.fin (scrubStage3 scrub_nodata rtol
      (scrubStage2 scrub_nodata max_abs (scrubStage1 scrub_nodata v).1).1).1,
   (scrubStage1 scrub_nodata v).2,
   (scrubStage2 scrub_nodata max_abs (scrubStage1 scrub_nodata v).1).2,
   (scrubStage3 scrub_nodata rtol
      (scrubStage2 scrub_nodata max_abs (scrubStage1 scrub_nodata v).1).1).2)

/-- Result of `scrub_raster`: the scrubbed blocks, the three counters
accumulated across all blocks, and whether the raster was logged as CLEAN
(all three counters zero). -/
structure ScrubOutcome where
  scrubbed_blocks : List (List RVal)
  non_finite_count : Nat
  large_value_count : Nat
  close_to_nodata : Nat
  clean : Bool
deriving DecidableEq

/-- The `raster_calculator` pass of `scrub_raster` over all blocks with a
resolved scrub nodata value, accumulating the three counters. -/
def scrubRun (scrub_nodata rtol max_abs : ℚ) (blocks : List (List RVal)) :
    ScrubOutcome :=
  ⟨blocks.map (fun b => b.map (fun v => (scrubCell scrub_nodata rtol max_abs v).1)),
   (blocks.map (fun b =>
      (b.map (fun v => (scrubCell scrub_nodata rtol max_abs v).2.1)).sum)).sum,
   (blocks.map (fun b =>
      (b.map (fun v => (scrubCell scrub_nodata rtol max_abs v).2.2.1)).sum)).sum,
   (blocks.map (fun b =>
      (b.map (fun v => (scrubCell scrub_nodata rtol max_abs v).2.2.2)).sum)).sum,
   ((blocks.map (fun b =>
       (b.map (fun v => (scrubCell scrub_nodata rtol max_abs v).2.1)).sum)).sum == 0) &&
   ((blocks.map (fun b =>
       (b.map (fun v => (scrubCell scrub_nodata rtol max_abs v).2.2.1)).sum)).sum == 0) &&
   ((blocks.map (fun b =>
       (b.map (fun v => (scrubCell scrub_nodata rtol max_abs v).2.2.2)).sum)).sum == 0)⟩

/-- Model of `scrub_raster`: resolve the scrub nodata value from the base and
requested target nodata values (both absent, or present and different, is a
hard error), then scrub block by block. The path-aliasing precondition
(source and target must not be the same file) is filesystem-level and not
modelled. -/
def scrub_raster (blocks : List (List RVal)) (base_nodata target_nodata : Option ℚ)
    (rtol max_abs : ℚ) : Except String ScrubOutcome :=
  match base_nodata, target_nodata with
  | none, none => Except.error "value base and target nodata are both None"
  | some b, some t =>
      if b ≠ t then
        Except.error "base raster has a defined nodata value and also a requested target value"
      else Except.ok (scrubRun t rtol max_abs blocks)
  | some b, none => Except.ok (scrubRun b rtol max_abs blocks)
  | none, some t => Except.ok (scrubRun t rtol max_abs blocks)

/-- One row of the `work_status` table:
`(scenario_id, watershed_id, watershed_area, status)` with primary key
`(scenario_id, watershed_id)`. -/
structure WorkRow where
  scenario_id : String
  watershed_id : String
  watershed_area : ℚ
  status : String
deriving DecidableEq

/-- Primary-key predicate for a row. -/
def keyMatches (s w : String) (r : WorkRow) : Bool :=
  decide (r.scenario_id = s ∧ r.watershed_id = w)

/-- Row lookup by primary key. -/
def lookupRow (t : List WorkRow) (s w : String) : Option WorkRow :=
  t.find? (keyMatches s w)

/-- Model of the scheduling statement
`INSERT OR IGNORE INTO work_status(scenario_id, watershed_id, watershed_area, status) VALUES(?, ?, ?, ?)`
executed with status `SCHEDULED_STATUS`: if a row with the primary key
already exists the insert is ignored, otherwise the new row is added. -/
def insertOrIgnoreScheduled (t : List WorkRow) (s w : String) (area : ℚ) :
    List WorkRow :=
  if t.any (keyMatches s w) = true then t
  else t ++ [⟨s, w, area, SCHEDULED_STATUS⟩]

/-- Model of `os.path` handling: final path component (part after the last
slash), as used by `os.path.basename`. -/
def lastPathComponent (cs : List Char) : List Char :=
  (cs.reverse.takeWhile (fun c => c != '/')).reverse

/-- Directory part of a path, up to and including the last slash. -/
def dirPartOf (cs : List Char) : List Char :=
  (cs.reverse.dropWhile (fun c => c != '/')).reverse

/-- Model of the root part of `os.path.splitext`: the extension starts at the
last dot of the final path component, except that leading dots of that
component are part of the root. -/
def splitextRoot (cs : List Char) : List Char :=
  if ((lastPathComponent cs).drop
        ((lastPathComponent cs).takeWhile (fun c => c == '.')).length).any
      (fun c => c == '.') then
    dirPartOf cs ++ (lastPathComponent cs).takeWhile (fun c => c == '.') ++
      ((((lastPathComponent cs).drop
          ((lastPathComponent cs).takeWhile (fun c => c == '.')).length).reverse.dropWhile
          (fun c => c != '.')).drop 1).reverse
  else cs

/-- Model of `os.path.basename(os.path.splitext(watershed_path)[0])`. -/
def watershed_basename_of (watershed_path : List Char) : List Char :=
  lastPathComponent (splitextRoot watershed_path)

/-- Decimal digit character for a digit value below ten. -/
def digitChar (d : Nat) : Char := Char.ofNat (48 + d)

/-- Little-endian decimal digits of `n`, computed with explicit fuel so that
the definition is structurally recursive. -/
def toDigitsRev : Nat → Nat → List Nat
  | 0, _ => []
  | fuel + 1, n => if n = 0 then [] else n % 10 :: toDigitsRev fuel (n / 10)

/-- Model of Python `str` on a non-negative integer: its decimal digit
characters, most significant first. -/
def natToChars (n : Nat) : List Char :=
  if n = 0 then ['0'] else ((toDigitsRev n n).map digitChar).reverse

/-- Model of Python `int` on a non-empty string of decimal digits. -/
def charsToNat (ds : List Char) : Nat :=
  ds.foldl (fun acc c => 10 * acc + (c.toNat - 48)) 0

/-- Model of `_create_watershed_id`: the watershed basename together with the
unique id string `basename + underscore + str(fid)`. -/
def _create_watershed_id (watershed_path : List Char) (watershed_fid : Nat) :
    List Char × List Char :=
  (watershed_basename_of watershed_path,
   watershed_basename_of watershed_path ++ '_' :: natToChars watershed_fid)

/-- Model of `_split_watershed_id`, the greedy match of the regular
expression anchored as caret (.*) underscore (digits*) dollar: the split
happens at the last underscore whose suffix consists only of digits. A
failed match (Python `AttributeError` on `.groups()` of `None`) and an empty
digit group (Python `ValueError` from `int` of an empty string) are both
modelled as `none`. -/
def _split_watershed_id (watershed_id : List Char) : Option (List Char × Nat) :=
  match watershed_id.reverse.dropWhile Char.isDigit with
  | [] => none
  | c :: restRev =>
      if c = '_' then
        if (watershed_id.reverse.takeWhile Char.isDigit).isEmpty then none
        else some (restRev.reverse,
          charsToNat (watershed_id.reverse.takeWhile Char.isDigit).reverse)
      else none

/-- A stitch payload as placed on the completion queue:
`(export_raster_path, modified_load_raster_path, workspace_dir, watershed_basename, watershed_id)`. -/
structure Payload where
  export_raster_path : String
  modified_load_raster_path : String
  workspace_dir : String
  watershed_basename : String
  watershed_id : String
deriving DecidableEq

/-- Externally visible actions of the unit runner `ndr_plus_and_stitch`. -/
inductive RunnerEvent where
  | setWorkStatus (updates : List (String × String × String))
  | queuePut (payload : Payload)
deriving DecidableEq

/-- The free-form failure status written by the runner's exception handler. -/
def failureTag (e : String) : String := "exception happened: " ++ e

/-- Model of `ndr_plus_and_stitch`. The external model call and the queue
`put` are represented by their outcomes. All of the body runs inside one
`try` whose handler logs, writes the failure tag into the unit's status, and
returns without re-raising; the returned `Except` is the call's own outcome
(`ok` = returns normally). -/
def ndr_plus_and_stitch (scenario_id : String) (watershed_path : List Char)
    (watershed_fid : Nat)
    (target_export_raster_path target_modified_load_raster_path workspace_dir : String)
    (ndrOutcome enqueueOutcome : Except String Unit) :
    List RunnerEvent × Except String Unit :=
  match ndrOutcome with
  | Except.error e =>
      ([RunnerEvent.setWorkStatus
          [(failureTag e, scenario_id,
            String.mk (_create_watershed_id watershed_path watershed_fid).2)]],
       Except.ok ())
  | Except.ok _ =>
      match enqueueOutcome with
      | Except.ok _ =>
          ([RunnerEvent.setWorkStatus
              [(COMPUTED_STATUS, scenario_id,
                String.mk (_create_watershed_id watershed_path watershed_fid).2)],
            RunnerEvent.queuePut
              ⟨target_export_raster_path, target_modified_load_raster_path,
               workspace_dir,
               String.mk (_create_watershed_id watershed_path watershed_fid).1,
               String.mk (_create_watershed_id watershed_path watershed_fid).2⟩],
           Except.ok ())
      | Except.error e =>
          ([RunnerEvent.setWorkStatus
              [(COMPUTED_STATUS, scenario_id,
                String.mk (_create_watershed_id watershed_path watershed_fid).2)],
            RunnerEvent.setWorkStatus
              [(failureTag e, scenario_id,
                String.mk (_create_watershed_id watershed_path watershed_fid).2)]],
           Except.ok ())

/-- Error taxonomy of the store-access wrapper. -/
inductive SqliteError where
  | operationalError (msg : String)
  | valueError (msg : String)
  | otherError (msg : String)
deriving DecidableEq

/-- One un-retried execution of the `_execute_sqlite` body: dispatch on
`mode` (unknown modes raise `ValueError`), then on `execute` (unknown
execute modes raise `ValueError`), then on `fetch` (unknown fetch modes
raise `ValueError`). The connection attempt and the statement-plus-fetch
work are represented by their outcomes. -/
def _execute_sqlite_body (mode executeArg : String) (fetch : Option String)
    (connectOutcome : Except SqliteError Unit)
    (runOutcome : Except SqliteError (Option (List ℚ))) :
    Except SqliteError (Option (List ℚ)) :=
  if mode = "read_only" ∨ mode = "modify" then
    match connectOutcome with
    | Except.error e => Except.error e
    | Except.ok _ =>
      if executeArg = "execute" ∨ executeArg = "script" ∨ executeArg = "executemany" then
        match runOutcome with
        | Except.error e => Except.error e
        | Except.ok payload =>
          match fetch with
          | none => Except.ok none
          | some f =>
            if f = "all" ∨ f = "one" then Except.ok payload
            else Except.error (SqliteError.valueError ("Unknown fetch mode: " ++ f))
      else Except.error (SqliteError.valueError ("Unknown execute mode: " ++ executeArg))
  else Except.error (SqliteError.valueError ("Unknown mode: " ++ mode))

/-- Backoff delay in milliseconds emitted by the `retrying` decorator after a
failed attempt with the given 1-based attempt number:
`min(wait_exponential_multiplier * 2 ** attempt, wait_exponential_max)`
with multiplier 500 and maximum 3200. -/
def retryWait (attemptNumber : Nat) : Nat :=
  min (500 * 2 ^ attemptNumber) 3200

/-- The retry loop of the `retrying` decorator: run the body, and on any
exception retry while attempts remain, recording the backoff delays; when
the bounded attempt count is exhausted the last error propagates. Returns
(number of attempts made, delays waited, final outcome). -/
def retryGo {α : Type} (body : Nat → Except SqliteError α) :
    Nat → Nat → Nat × List Nat × Except SqliteError α
  | 0, idx => (idx - 1, [], Except.error (SqliteError.otherError "retry: no attempts"))
  | fuel + 1, idx =>
    match body idx with
    | Except.ok a => (idx, [], Except.ok a)
    | Except.error e =>
      if fuel = 0 then (idx, [], Except.error e)
      else
        ((retryGo body fuel (idx + 1)).1,
         retryWait idx :: (retryGo body fuel (idx + 1)).2.1,
         (retryGo body fuel (idx + 1)).2.2)

/-- Run a body under the retry policy with a bounded attempt count, starting
at attempt number 1. -/
def retryRun {α : Type} (maxAttempts : Nat) (body : Nat → Except SqliteError α) :
    Nat × List Nat × Except SqliteError α :=
  retryGo body maxAttempts 1

/-- Model of `_execute_sqlite`: the body wrapped in
`retrying.retry(wait_exponential_multiplier=500, wait_exponential_max=3200, stop_max_attempt_number=100)`,
which retries on every exception. The per-attempt connection and statement
outcomes are indexed by the attempt number. -/
def _execute_sqlite (mode executeArg : String) (fetch : Option String)
    (connectOutcome : Nat → Except SqliteError Unit)
    (runOutcome : Nat → Except SqliteError (Option (List ℚ))) :
    Nat × List Nat × Except SqliteError (Option (List ℚ)) :=
  retryRun 100 (fun i =>
    _execute_sqlite_body mode executeArg fetch (connectOutcome i) (runOutcome i))

/-- Configuration of one `stitch_worker` instance: its scenario, the two
global mosaic paths, and whether workspaces are reclaimed. -/
structure StitchConfig where
  scenario_id : String
  stitch_export_raster_path : String
  stitch_modified_load_raster_path : String
  remove_workspaces : Bool
deriving DecidableEq

/-- The four accumulation buffers of the aggregation loop. The write-only
`watershed_process_count` dictionary of the source (incremented, reset, and
never read) is not modelled. -/
structure StitchState where
  export_raster_list : List (String × Nat)
  modified_load_raster_list : List (String × Nat)
  workspace_list : List String
  status_update_list : List (String × String × String)
deriving DecidableEq

/-- The empty buffers at loop entry and after each flush. -/
def emptyStitchState : StitchState := ⟨[], [], [], []⟩

/-- Externally visible actions of the aggregation loop, tagged with the
index of the flush cycle they belong to. A merge start stands for launching
one `pygeoprocessing.stitch_rasters` thread (overlap algorithm `etch`,
resample list `near`, area-weighted), and the matching join for waiting on
it. -/
inductive Event where
  | mergeStartExport (flush : Nat) (raster_list : List (String × Nat))
  | mergeStartModifiedLoad (flush : Nat) (raster_list : List (String × Nat))
  | joinMergeExport (flush : Nat)
  | joinMergeModifiedLoad (flush : Nat)
  | removeWorkspace (flush : Nat) (dir : String)
  | statusUpdate (flush : Nat) (updates : List (String × String × String))
  | repostTerminal
  | finalizeRaster (path : String)
deriving DecidableEq

/-- How one call of the aggregation loop ended: terminal marker consumed
(`done`), queue exhausted without a terminal marker (`blocked`, modelling a
`get` that blocks forever), or an exception (`error`). -/
inductive StitchResult where
  | done
  | blocked
  | error (msg : String)
deriving DecidableEq

/-- Accumulating one payload into the four buffers, in source order. -/
def stepState (cfg : StitchConfig) (st : StitchState) (pl : Payload) : StitchState :=
  ⟨st.export_raster_list ++ [(pl.export_raster_path, 1)],
   st.modified_load_raster_list ++ [(pl.modified_load_raster_path, 1)],
   st.workspace_list ++ [pl.workspace_dir],
   st.status_update_list ++ [(COMPLETE_STATUS, cfg.scenario_id, pl.watershed_id)]⟩

/-- The error message raised when a payload names a missing artifact; the
first missing path of (export, modified load) is reported. -/
def missingArtifactMessage (cfg : StitchConfig) (fs : List String) (pl : Payload) :
    String :=
  "this path " ++
    (if pl.export_raster_path ∈ fs then pl.modified_load_raster_path
     else pl.export_raster_path) ++
    " was to stitch into " ++ cfg.stitch_export_raster_path ++ " or " ++
    cfg.stitch_modified_load_raster_path ++ " but does not exist: "

/-- Events of one flush cycle, in source order: start the export merge
thread, start the modified-load merge thread, join the export merge, join
the modified-load merge, then (if configured) remove each buffered
workspace, then issue the one batched status update of the flush. -/
def flushEvents (cfg : StitchConfig) (st : StitchState) (flush : Nat) : List Event :=
  [Event.mergeStartExport flush st.export_raster_list,
   Event.mergeStartModifiedLoad flush st.modified_load_raster_list,
   Event.joinMergeExport flush,
   Event.joinMergeModifiedLoad flush] ++
  (if cfg.remove_workspaces = true
   then st.workspace_list.map (Event.removeWorkspace flush) else []) ++
  [Event.statusUpdate flush st.status_update_list]

/-- One call of the aggregation loop of `stitch_worker` over a queue
modelled as a list (`none` is the terminal marker). Per payload: accumulate
into the buffers, raise if either named artifact is missing from the
filesystem `fs`, flush when the buffers reach 100 entries or on the terminal
marker; after the terminal flush, re-post the terminal marker and run the
one-time finalize pass over both mosaics. Returns the event trace, how the
call ended, and the unconsumed rest of the queue. -/
def stitch_worker_loop (cfg : StitchConfig) (fs : List String) :
    List (Option Payload) → StitchState → Nat →
      List Event × StitchResult × List (Option Payload)
  | [], _, _ => ([], StitchResult.blocked, [])
  | none :: rest, st, flush =>
      (flushEvents cfg st flush ++
        [Event.repostTerminal,
         Event.finalizeRaster cfg.stitch_export_raster_path,
         Event.finalizeRaster cfg.stitch_modified_load_raster_path],
       StitchResult.done, rest ++ [none])
  | some pl :: rest, st, flush =>
      if pl.export_raster_path ∉ fs ∨ pl.modified_load_raster_path ∉ fs then
        ([], StitchResult.error (missingArtifactMessage cfg fs pl), rest)
      else if (stepState cfg st pl).workspace_list.length < 100 then
        stitch_worker_loop cfg fs rest (stepState cfg st pl) flush
      else
        (flushEvents cfg (stepState cfg st pl) flush ++
           (stitch_worker_loop cfg fs rest emptyStitchState (flush + 1)).1,
         (stitch_worker_loop cfg fs rest emptyStitchState (flush + 1)).2)

/-- One attempt of `stitch_worker`, entered with empty buffers. -/
def stitch_worker (cfg : StitchConfig) (fs : List String)
    (queue : List (Option Payload)) :
    List Event × StitchResult × List (Option Payload) :=
  stitch_worker_loop cfg fs queue emptyStitchState 0

/-- Model of the `retrying.retry(stop_max_attempt_number=100)` decorator on
`stitch_worker`: on any exception the whole function is re-invoked (with
fresh local buffers) on the remaining queue, until the attempt bound is
exhausted. Returns (number of attempts made, concatenated event trace,
final outcome). -/
def stitch_worker_with_retry (cfg : StitchConfig) (fs : List String) :
    Nat → List (Option Payload) → Nat × List Event × StitchResult
  | 0, _ => (0, [], StitchResult.error "retry: no attempts")
  | fuel + 1, queue =>
    match stitch_worker cfg fs queue with
    | (evs, StitchResult.error e, restQueue) =>
      if fuel = 0 then (1, evs, StitchResult.error e)
      else
        ((stitch_worker_with_retry cfg fs fuel restQueue).1 + 1,
         evs ++ (stitch_worker_with_retry cfg fs fuel restQueue).2.1,
         (stitch_worker_with_retry cfg fs fuel restQueue).2.2)
    | (evs, StitchResult.done, _) => (1, evs, StitchResult.done)
    | (evs, StitchResult.blocked, _) => (1, evs, StitchResult.blocked)

/-- The buffers produced by accumulating exactly the payloads of `batch`, in
order, from empty buffers. -/
def buffersOf (cfg : StitchConfig) (batch : List Payload) : StitchState :=
  ⟨batch.map (fun p => (p.export_raster_path, 1)),
   batch.map (fun p => (p.modified_load_raster_path, 1)),
   batch.map (fun p => p.workspace_dir),
   batch.map (fun p => (COMPLETE_STATUS, cfg.scenario_id, p.watershed_id))⟩

/-- Lengths of the update list of each batched status-update call in a
trace, in order. -/
def statusUpdateSizes (evs : List Event) : List Nat :=
  evs.filterMap (fun e => match e with
    | Event.statusUpdate _ l => some l.length
    | _ => none)

/-- Lengths of the raster list of each export merge launched in a trace, in
order (one per flush cycle). -/
def mergeExportSizes (evs : List Event) : List Nat :=
  evs.filterMap (fun e => match e with
    | Event.mergeStartExport _ l => some l.length
    | _ => none)

/-- The flush sizes produced by feeding `n` payloads and then the terminal
marker into a loop whose buffers currently hold `k` entries: a flush of 100
whenever the buffers fill, and a final flush of whatever remains when the
terminal marker arrives. -/
def flushSizes : Nat → Nat → List Nat
  | k, 0 => [k]
  | k, n + 1 => if k + 1 < 100 then flushSizes (k + 1) n else 100 :: flushSizes 0 n

/-- Checker for the ordering stated by the workspace-reclamation claim: every
workspace removal must come after the batched status update of its own flush
cycle. -/
def removalOnlyAfterUpdateGo : List Nat → List Event → Bool
  | _, [] => true
  | seen, Event.statusUpdate n _ :: rest => removalOnlyAfterUpdateGo (n :: seen) rest
  | seen, Event.removeWorkspace n _ :: rest =>
      seen.contains n && removalOnlyAfterUpdateGo seen rest
  | seen, _ :: rest => removalOnlyAfterUpdateGo seen rest

/-- Whether every workspace removal in a trace is preceded by the status
update of the same flush cycle. -/
def removalOnlyAfterUpdate (evs : List Event) : Bool :=
  removalOnlyAfterUpdateGo [] evs

/-- Sample scenario id used in concrete runs. -/
def sampleScenarioId : String := "scenario_a"

/-- Sample aggregator configuration with workspace reclamation enabled. -/
def sampleConfig : StitchConfig :=
  ⟨sampleScenarioId, "global_export.tif", "global_modified_load.tif", true⟩

/-- Sample payload naming the two per-unit output rasters, the unit
workspace, and the watershed identity. -/
def samplePayload : Payload :=
  ⟨"ws_export.tif", "ws_modified_load.tif", "ws_dir", "af_bas_15s_beta",
   "af_bas_15s_beta_1"⟩

/-- Sample filesystem on which both artifacts of `samplePayload` exist. -/
def sampleFs : List String := ["ws_export.tif", "ws_modified_load.tif"]

/-- Sample watershed-id key used in concrete store runs. -/
def sampleWatershedKey : String := "af_bas_15s_beta_7"

/-!
Theorems. Helper lemmas come first, then one theorem per claim (with its
witness or counterexample where applicable).
-/

/-- C4 counterexample: with declared nodata -9999.0, default tolerances and
the caller's rtol = 0.001, the cell value -9999.0001 is within rtol of
nodata and not equal to it, yet `detect_invalid_values` reports the raster
as valid (the claim says such a cell is flagged Invalid). The reason is
that the "not equal to nodata" side of the mask is another `numpy.isclose`
call at default tolerance (about 0.1 here), not an exact comparison. -/
theorem c4_counterexample :
    detect_invalid_values [[RVal.fin (-99990001 / 10000)]] (some (-9999))
        (1 / 1000) (10 ^ 30) = none ∧
    (-99990001 / 10000 : ℚ) ≠ -9999 ∧
    npIsclose (-99990001 / 10000) (-9999) (1 / 1000) npDefaultAtol = true := by
  refine ⟨?_, by norm_num, by norm_num [npIsclose, npDefaultAtol, abs_le]⟩
  norm_num [detect_invalid_values, detectBlock, RVal.isFinite, npIsclose,
    npDefaultAtol, npDefaultRtol, abs_le]

/-- C4 (amended): for a raster consisting of one finite cell `v` and
declared nodata `nd`, `detect_invalid_values` flags the cell as
close-to-nodata exactly when `v` is within the caller's relative tolerance
of `nd` but not within numpy's default `isclose` tolerance of `nd`; and a
cell exactly equal to `nd` is never flagged (the raster is reported valid). -/
theorem c4_near_nodata_band (v nd rtol max_abs : ℚ) :
    (detect_invalid_values [[RVal.fin v]] (some nd) rtol max_abs =
        some InvalidReason.closeToNodata ↔
      (npIsclose v nd rtol npDefaultAtol = true ∧
       npIsclose v nd npDefaultRtol npDefaultAtol = false)) ∧
    detect_invalid_values [[RVal.fin nd]] (some nd) rtol max_abs = none := by
  have hB : npIsclose nd nd npDefaultRtol npDefaultAtol = true := by
    simp only [npIsclose, decide_eq_true_eq, sub_self, abs_zero,
      npDefaultAtol, npDefaultRtol]
    positivity
  constructor
  · cases h2 : npIsclose v nd rtol npDefaultAtol <;>
      cases h3 : npIsclose v nd npDefaultRtol npDefaultAtol <;>
        cases h4 : decide (|v| ≥ max_abs) <;>
          simp [detect_invalid_values, detectBlock, RVal.isFinite, h2, h3, h4]
  · simp [detect_invalid_values, detectBlock, RVal.isFinite, hB]

/-- A cell whose three scrub counters are all zero is returned unchanged. -/
theorem scrubCell_id_of_zero (nd rtol max_abs : ℚ) (v : RVal)
    (h1 : (scrubCell nd rtol max_abs v).2.1 = 0)
    (h2 : (scrubCell nd rtol max_abs v).2.2.1 = 0)
    (h3 : (scrubCell nd rtol max_abs v).2.2.2 = 0) :
    (scrubCell nd rtol max_abs v).1 = v := by
  cases v with
  | nf => simp [scrubCell, scrubStage1] at h1
  | fin q =>
    by_cases hl : decide (|q| ≥ max_abs) = true
    · simp [scrubCell, scrubStage1, scrubStage2, hl] at h2
    · by_cases hc : npIsclose q nd rtol npDefaultAtol = true
      · simp [scrubCell, scrubStage1, scrubStage2, scrubStage3, hl, hc] at h3
      · simp [scrubCell, scrubStage1, scrubStage2, scrubStage3, hl, hc]

/-- A map that fixes every element of a list fixes the list. -/
theorem map_self_of_mem {α : Type} (l : List α) (f : α → α)
    (h : ∀ x ∈ l, f x = x) : l.map f = l := by
  induction l with
  | nil => rfl
  | cons a t ih =>
    simp only [List.map_cons, h a (by simp), List.cons.injEq, true_and]
    exact ih (fun x hx => h x (by simp [hx]))

/-- The scrub pass reports clean exactly when all three counters are zero,
and a clean scrub pass returns every block unchanged. -/
theorem scrubRun_clean (nd rtol max_abs : ℚ) (blocks : List (List RVal)) :
    ((scrubRun nd rtol max_abs blocks).clean = true ↔
      ((scrubRun nd rtol max_abs blocks).non_finite_count = 0 ∧
       (scrubRun nd rtol max_abs blocks).large_value_count = 0 ∧
       (scrubRun nd rtol max_abs blocks).close_to_nodata = 0)) ∧
    ((scrubRun nd rtol max_abs blocks).clean = true →
      (scrubRun nd rtol max_abs blocks).scrubbed_blocks = blocks) := by
  constructor
  · simp [scrubRun, Bool.and_eq_true, and_assoc]
  · intro hclean
    simp only [scrubRun, Bool.and_eq_true, beq_iff_eq] at hclean
    obtain ⟨⟨hnf, hlg⟩, hcn⟩ := hclean
    simp only [scrubRun]
    apply map_self_of_mem
    intro b hb
    apply map_self_of_mem
    intro v hv
    apply scrubCell_id_of_zero
    · have hbs := (List.sum_eq_zero_iff).mp hnf _
        (List.mem_map_of_mem _ hb)
      exact (List.sum_eq_zero_iff).mp hbs _ (List.mem_map_of_mem _ hv)
    · have hbs := (List.sum_eq_zero_iff).mp hlg _
        (List.mem_map_of_mem _ hb)
      exact (List.sum_eq_zero_iff).mp hbs _ (List.mem_map_of_mem _ hv)
    · have hbs := (List.sum_eq_zero_iff).mp hcn _
        (List.mem_map_of_mem _ hb)
      exact (List.sum_eq_zero_iff).mp hbs _ (List.mem_map_of_mem _ hv)

/-- C8 counterexample: a raster whose only cell is exactly the declared
nodata value -1 is returned bit-for-bit unchanged by `scrub_raster`, yet the
`close_to_nodata` counter is 1 and the raster is reported as scrubbed (not
clean), because the close-to-nodata mask also matches cells exactly equal to
nodata. This falsifies the claim that the three counts are zero exactly when
no cell was altered, and its instance that a raster whose only special
values are exact-nodata cells is reported clean. -/
theorem c8_counterexample :
    scrub_raster [[RVal.fin (-1)]] (some (-1)) none (1 / 1000) (10 ^ 30) =
      Except.ok ⟨[[RVal.fin (-1)]], 0, 0, 1, false⟩ := by
  norm_num [scrub_raster, scrubRun, scrubCell, scrubStage1, scrubStage2,
    scrubStage3, npIsclose, npDefaultAtol, abs_le]

/-- C8 (amended): `scrub_raster` reports a raster clean exactly when the
three counters (non-finite, large, close-to-nodata) are all zero, and a
clean report does imply that every output cell equals the corresponding
input cell; the converse fails because cells exactly equal to nodata are
counted by the close-to-nodata mask without being altered. -/
theorem c8_clean_iff (blocks : List (List RVal)) (bnd tnd : Option ℚ)
    (rtol max_abs : ℚ) (out : ScrubOutcome)
    (h : scrub_raster blocks bnd tnd rtol max_abs = Except.ok out) :
    (out.clean = true ↔ (out.non_finite_count = 0 ∧ out.large_value_count = 0 ∧
      out.close_to_nodata = 0)) ∧
    (out.clean = true → out.scrubbed_blocks = blocks) := by
  cases bnd with
  | none =>
    cases tnd with
    | none => simp [scrub_raster] at h
    | some t =>
      simp only [scrub_raster, Except.ok.injEq] at h
      rw [← h]
      exact scrubRun_clean t rtol max_abs blocks
  | some b =>
    cases tnd with
    | none =>
      simp only [scrub_raster, Except.ok.injEq] at h
      rw [← h]
      exact scrubRun_clean b rtol max_abs blocks
    | some t =>
      by_cases hbt : b = t
      · rw [show scrub_raster blocks (some b) (some t) rtol max_abs =
            Except.ok (scrubRun t rtol max_abs blocks) by
          simp [scrub_raster, hbt]] at h
        obtain rfl : scrubRun t rtol max_abs blocks = out := by
          exact Except.ok.inj h
        exact scrubRun_clean t rtol max_abs blocks
      · simp [scrub_raster, hbt] at h

/-- C8 witness: the amended theorem applied to a genuinely clean one-cell
raster (value 5, nodata -1). -/
theorem c8_clean_iff_witness :
    ((scrubRun (-1) (1 / 1000) (10 ^ 30) [[RVal.fin 5]]).clean = true ↔
      ((scrubRun (-1) (1 / 1000) (10 ^ 30) [[RVal.fin 5]]).non_finite_count = 0 ∧
       (scrubRun (-1) (1 / 1000) (10 ^ 30) [[RVal.fin 5]]).large_value_count = 0 ∧
       (scrubRun (-1) (1 / 1000) (10 ^ 30) [[RVal.fin 5]]).close_to_nodata = 0)) ∧
    ((scrubRun (-1) (1 / 1000) (10 ^ 30) [[RVal.fin 5]]).clean = true →
      (scrubRun (-1) (1 / 1000) (10 ^ 30) [[RVal.fin 5]]).scrubbed_blocks =
        [[RVal.fin 5]]) :=
  c8_clean_iff [[RVal.fin 5]] (some (-1)) none (1 / 1000) (10 ^ 30)
    (scrubRun (-1) (1 / 1000) (10 ^ 30) [[RVal.fin 5]]) rfl

/-- If a search over the first list fails, searching the concatenation
searches the second list. -/
theorem find?_append_of_none {α : Type} (p : α → Bool) :
    ∀ (l1 l2 : List α), l1.find? p = none → (l1 ++ l2).find? p = l2.find? p := by
  intro l1
  induction l1 with
  | nil => intro l2 _; rfl
  | cons a t ih =>
    intro l2 h
    cases ha : p a with
    | true => rw [List.find?_cons_of_pos _ ha] at h; exact absurd h (by simp)
    | false =>
      rw [List.find?_cons_of_neg _ (by simp [ha])] at h
      rw [List.cons_append, List.find?_cons_of_neg _ (by simp [ha])]
      exact ih l2 h

/-- C5: the scheduling insert is idempotent. If a `(scenario_id,
watershed_id)` row already exists, inserting it again with a different area
leaves the table (hence the stored status and the first inserted area)
unchanged, whatever the prior status; and inserting the same key twice into
a table that lacked it keeps the first insert's area and the SCHEDULED
status. -/
theorem c5_idempotent_scheduling (t : List WorkRow) (s w : String) (a1 a2 : ℚ) :
    (∀ r : WorkRow, lookupRow t s w = some r →
        insertOrIgnoreScheduled t s w a2 = t) ∧
    (lookupRow t s w = none →
        insertOrIgnoreScheduled (insertOrIgnoreScheduled t s w a1) s w a2 =
          insertOrIgnoreScheduled t s w a1 ∧
        lookupRow (insertOrIgnoreScheduled (insertOrIgnoreScheduled t s w a1) s w a2)
            s w = some ⟨s, w, a1, SCHEDULED_STATUS⟩) := by
  constructor
  · intro r h
    have hmem : r ∈ t := List.mem_of_find?_eq_some h
    have hp : keyMatches s w r = true := List.find?_some h
    have hany : t.any (keyMatches s w) = true := List.any_eq_true.mpr ⟨r, hmem, hp⟩
    simp [insertOrIgnoreScheduled, hany]
  · intro h
    have hall : ∀ x ∈ t, ¬ (keyMatches s w x = true) := by
      intro x hx
      exact List.find?_eq_none.mp h x hx
    have hany : t.any (keyMatches s w) = false := by
      cases hv : t.any (keyMatches s w) with
      | false => rfl
      | true =>
        obtain ⟨x, hx, hpx⟩ := List.any_eq_true.mp hv
        exact absurd hpx (hall x hx)
    have hrow : keyMatches s w (⟨s, w, a1, SCHEDULED_STATUS⟩ : WorkRow) = true := by
      simp [keyMatches]
    have h1 : insertOrIgnoreScheduled t s w a1 =
        t ++ [⟨s, w, a1, SCHEDULED_STATUS⟩] := by
      simp [insertOrIgnoreScheduled, hany]
    have hany2 : (t ++ [(⟨s, w, a1, SCHEDULED_STATUS⟩ : WorkRow)]).any
        (keyMatches s w) = true := by
      rw [List.any_append]
      simp [hrow]
    constructor
    · rw [h1]
      simp [insertOrIgnoreScheduled, hany2]
    · rw [h1]
      rw [show insertOrIgnoreScheduled (t ++ [(⟨s, w, a1, SCHEDULED_STATUS⟩ : WorkRow)])
            s w a2 = t ++ [⟨s, w, a1, SCHEDULED_STATUS⟩] by
        simp [insertOrIgnoreScheduled, hany2]]
      rw [lookupRow, find?_append_of_none _ t _ h]
      exact List.find?_cons_of_pos _ hrow


/-- C5 witness: inserting the same key twice with areas 2 and then 3 into an
empty table keeps one row with area 2 and SCHEDULED status. -/
theorem c5_idempotent_scheduling_witness :
    insertOrIgnoreScheduled
        (insertOrIgnoreScheduled [] sampleScenarioId sampleWatershedKey 2)
        sampleScenarioId sampleWatershedKey 3 =
      insertOrIgnoreScheduled [] sampleScenarioId sampleWatershedKey 2 ∧
    lookupRow
        (insertOrIgnoreScheduled
          (insertOrIgnoreScheduled [] sampleScenarioId sampleWatershedKey 2)
          sampleScenarioId sampleWatershedKey 3)
        sampleScenarioId sampleWatershedKey =
      some ⟨sampleScenarioId, sampleWatershedKey, 2, SCHEDULED_STATUS⟩ :=
  (c5_idempotent_scheduling [] sampleScenarioId sampleWatershedKey 2 3).2 rfl

/-- C7 (amended): when the external model call succeeds and the enqueue of
the stitch payload then fails, the runner's catch-all handler records the
failure as the unit's per-unit failure tag (overwriting COMPUTED) and the
runner returns normally — the exception does not propagate out. -/
theorem c7_enqueue_failure_tagged (scenario_id : String)
    (watershed_path : List Char) (watershed_fid : Nat) (te tl wd e : String) :
    ndr_plus_and_stitch scenario_id watershed_path watershed_fid te tl wd
        (Except.ok ()) (Except.error e) =
      ([RunnerEvent.setWorkStatus
          [(COMPUTED_STATUS, scenario_id,
            String.mk (_create_watershed_id watershed_path watershed_fid).2)],
        RunnerEvent.setWorkStatus
          [(failureTag e, scenario_id,
            String.mk (_create_watershed_id watershed_path watershed_fid).2)]],
       Except.ok ()) := rfl

/-- C7 counterexample: a concrete run in which the model call succeeds and
the enqueue fails. The runner returns `ok` (no exception propagates) and
the trace ends with a failure-tag status write — contradicting the claim
that an enqueue failure after COMPUTED propagates out of the runner instead
of being recorded as the unit's failure tag. -/
theorem c7_counterexample :
    ndr_plus_and_stitch sampleScenarioId ("dir/af_bas_15s_beta.shp").toList 7
        ("t_export.tif") ("t_modified_load.tif") ("t_workspace")
        (Except.ok ()) (Except.error ("queue unavailable")) =
      ([RunnerEvent.setWorkStatus
          [(COMPUTED_STATUS, sampleScenarioId, "af_bas_15s_beta_7")],
        RunnerEvent.setWorkStatus
          [("exception happened: queue unavailable", sampleScenarioId,
            "af_bas_15s_beta_7")]],
       Except.ok ()) := rfl

/-- Unfolding of the retry loop on a failed last attempt. -/
theorem retryGo_error_last {α : Type} (body : Nat → Except SqliteError α)
    (e : SqliteError) (idx : Nat) (h : body idx = Except.error e) :
    retryGo body 1 idx = (idx, [], Except.error e) := by
  simp only [retryGo]
  rw [h]
  simp

/-- Unfolding step of the retry loop on a failed attempt with attempts left. -/
theorem retryGo_error_step {α : Type} (body : Nat → Except SqliteError α)
    (e : SqliteError) (fuel idx : Nat) (h : body idx = Except.error e)
    (hf : fuel ≠ 0) :
    retryGo body (fuel + 1) idx =
      ((retryGo body fuel (idx + 1)).1,
       retryWait idx :: (retryGo body fuel (idx + 1)).2.1,
       (retryGo body fuel (idx + 1)).2.2) := by
  simp only [retryGo]
  rw [h]
  simp [hf]

/-- A body that fails on every attempt exhausts the whole attempt budget:
starting at attempt `idx` with `fuel + 1` attempts allowed, the retry loop
makes `fuel + 1` attempts, waits the exponential backoff delays between
them, and finally propagates the error. -/
theorem retryGo_const_error {α : Type} (body : Nat → Except SqliteError α)
    (e : SqliteError) (hb : ∀ i, body i = Except.error e) :
    ∀ (fuel idx : Nat), retryGo body (fuel + 1) idx =
      (idx + fuel, (List.range fuel).map (fun k => retryWait (idx + k)),
       Except.error e) := by
  intro fuel
  induction fuel with
  | zero =>
    intro idx
    simp [retryGo_error_last body e idx (hb idx)]
  | succ fuel ih =>
    intro idx
    rw [retryGo_error_step body e (fuel + 1) idx (hb idx) (Nat.succ_ne_zero fuel)]
    rw [ih (idx + 1)]
    refine Prod.ext (by omega) (Prod.ext ?_ rfl)
    simp only
    rw [List.range_succ_eq_map]
    simp only [List.map_cons, List.map_map, Nat.add_zero, List.cons.injEq,
      true_and]
    apply List.map_congr_left
    intro k _
    simp only [Function.comp_apply]
    congr 1
    omega

/-- C9: the store-access wrapper retries every exception, not only transient
lock errors. A call with an unknown `mode` fails identically on every
attempt, yet the wrapper re-attempts it the full 100 times, waiting the
exponential backoff delays `min(500 * 2^attempt, 3200)` between attempts,
before the `ValueError` finally propagates. -/
theorem c9_retry_all_errors (mode executeArg : String) (fetch : Option String)
    (connectOutcome : Nat → Except SqliteError Unit)
    (runOutcome : Nat → Except SqliteError (Option (List ℚ)))
    (h1 : mode ≠ "read_only") (h2 : mode ≠ "modify") :
    _execute_sqlite mode executeArg fetch connectOutcome runOutcome =
      (100, (List.range 99).map (fun k => retryWait (1 + k)),
       Except.error (SqliteError.valueError ("Unknown mode: " ++ mode))) := by
  have hbody : ∀ i, _execute_sqlite_body mode executeArg fetch
      (connectOutcome i) (runOutcome i) =
      Except.error (SqliteError.valueError ("Unknown mode: " ++ mode)) := by
    intro i
    simp [_execute_sqlite_body, h1, h2]
  have h := retryGo_const_error
    (fun i => _execute_sqlite_body mode executeArg fetch (connectOutcome i) (runOutcome i))
    (SqliteError.valueError ("Unknown mode: " ++ mode)) hbody 99 1
  simpa [_execute_sqlite, retryRun] using h

/-- C9 witness: the theorem applied to the concrete unknown mode `bogus`. -/
theorem c9_retry_all_errors_witness :
    _execute_sqlite ("bogus") ("execute") none (fun _ => Except.ok ())
        (fun _ => Except.ok none) =
      (100, (List.range 99).map (fun k => retryWait (1 + k)),
       Except.error (SqliteError.valueError ("Unknown mode: " ++ "bogus"))) :=
  c9_retry_all_errors ("bogus") ("execute") none (fun _ => Except.ok ())
    (fun _ => Except.ok none) (by decide) (by decide)

/-- The fuelled digit function agrees with `Nat.digits` base 10 when the
fuel covers the input. -/
theorem toDigitsRev_eq_digits :
    ∀ (fuel n : Nat), n ≤ fuel → toDigitsRev fuel n = Nat.digits 10 n := by
  intro fuel
  induction fuel with
  | zero =>
    intro n hn
    interval_cases n
    simp [toDigitsRev]
  | succ fuel ih =>
    intro n hn
    by_cases h0 : n = 0
    · simp [toDigitsRev, h0]
    · rw [show toDigitsRev (fuel + 1) n = n % 10 :: toDigitsRev fuel (n / 10) by
        simp [toDigitsRev, h0]]
      rw [ih (n / 10) (by omega)]
      exact (Nat.digits_def' (by norm_num : (1:ℕ) < 10)
        (Nat.pos_of_ne_zero h0)).symm

/-- The character of a decimal digit is a digit character. -/
theorem digitChar_isDigit {d : Nat} (hd : d < 10) :
    (digitChar d).isDigit = true := by
  interval_cases d <;> decide

/-- Code point of the character of a decimal digit. -/
theorem digitChar_toNat {d : Nat} (hd : d < 10) :
    (digitChar d).toNat = 48 + d := by
  interval_cases d <;> decide

/-- Every character of the decimal rendering of a natural number is a digit. -/
theorem natToChars_isDigit (n : Nat) :
    ∀ c ∈ natToChars n, c.isDigit = true := by
  intro c hc
  by_cases h0 : n = 0
  · simp [natToChars, h0] at hc
    subst hc
    decide
  · simp only [natToChars, if_neg h0, List.mem_reverse, List.mem_map] at hc
    obtain ⟨d, hd, rfl⟩ := hc
    rw [toDigitsRev_eq_digits n n (le_refl n)] at hd
    exact digitChar_isDigit (Nat.digits_lt_base (by norm_num) hd)

/-- The decimal rendering of a natural number is never empty. -/
theorem natToChars_ne_nil (n : Nat) : natToChars n ≠ [] := by
  by_cases h0 : n = 0
  · simp [natToChars, h0]
  · simp only [natToChars, if_neg h0]
    intro h
    rw [List.reverse_eq_nil_iff, List.map_eq_nil_iff,
      toDigitsRev_eq_digits n n (le_refl n)] at h
    exact h0 (Nat.digits_eq_nil_iff_eq_zero.mp h)

/-- Folding the decimal-accumulation step over digit characters equals
folding it over the digits themselves. -/
theorem foldl_digitChar (L : List Nat) :
    ∀ (a : Nat), (∀ d ∈ L, d < 10) →
      (L.map digitChar).foldl (fun acc c => 10 * acc + (c.toNat - 48)) a =
        L.foldl (fun acc d => 10 * acc + d) a := by
  induction L with
  | nil => intro a _; rfl
  | cons d L ih =>
    intro a h
    simp only [List.map_cons, List.foldl_cons]
    rw [digitChar_toNat (h d (by simp))]
    rw [show 48 + d - 48 = d by omega]
    exact ih _ (fun x hx => h x (by simp [hx]))

/-- Folding the decimal-accumulation step over the reversed little-endian
digit list evaluates the number. -/
theorem foldl_reverse_ofDigits (L : List Nat) :
    ∀ (a : Nat), L.reverse.foldl (fun acc d => 10 * acc + d) a =
      a * 10 ^ L.length + Nat.ofDigits 10 L := by
  induction L with
  | nil => intro a; simp [Nat.ofDigits]
  | cons d L ih =>
    intro a
    rw [List.reverse_cons, List.foldl_append]
    simp only [List.foldl_cons, List.foldl_nil]
    rw [ih a, Nat.ofDigits_cons]
    simp only [List.length_cons, pow_succ]
    ring

/-- Parsing the decimal rendering of a natural number returns the number. -/
theorem charsToNat_natToChars (n : Nat) : charsToNat (natToChars n) = n := by
  by_cases h0 : n = 0
  · subst h0; rfl
  · simp only [natToChars, if_neg h0, charsToNat]
    rw [toDigitsRev_eq_digits n n (le_refl n)]
    rw [← List.map_reverse]
    rw [foldl_digitChar _ _ (fun d hd =>
      Nat.digits_lt_base (by norm_num) (List.mem_reverse.mp hd))]
    rw [foldl_reverse_ofDigits]
    simp [Nat.ofDigits_digits]

/-- Take-while and drop-while on a list made of a satisfying block, a
failing element, and a tail. -/
theorem takeWhile_append_sat {p : Char → Bool} :
    ∀ (xs : List Char) (y : Char) (zs : List Char),
      (∀ x ∈ xs, p x = true) → p y = false →
      (xs ++ y :: zs).takeWhile p = xs ∧ (xs ++ y :: zs).dropWhile p = y :: zs := by
  intro xs
  induction xs with
  | nil =>
    intro y zs _ hy
    simp [List.takeWhile_cons, List.dropWhile_cons, hy]
  | cons x xs ih =>
    intro y zs h hy
    have hx : p x = true := h x (by simp)
    have := ih y zs (fun a ha => h a (by simp [ha])) hy
    simp [List.takeWhile_cons, List.dropWhile_cons, hx, this.1, this.2]

/-- C10: the watershed-id encoding round-trips. For every vector path and
every non-negative feature id, splitting the id built by
`_create_watershed_id` returns exactly the basename (of the path, without
extension) and the feature id, even when the basename itself contains
underscores or ends in digits: the greedy regular expression splits at the
last underscore whose suffix is all digits, which is exactly the appended
separator. -/
theorem c10_watershed_id_roundtrip (watershed_path : List Char)
    (watershed_fid : Nat) :
    _split_watershed_id ((_create_watershed_id watershed_path watershed_fid).2) =
      some ((_create_watershed_id watershed_path watershed_fid).1, watershed_fid) := by
  simp only [_create_watershed_id]
  have hrev : (watershed_basename_of watershed_path ++
      '_' :: natToChars watershed_fid).reverse =
      (natToChars watershed_fid).reverse ++
        '_' :: (watershed_basename_of watershed_path).reverse := by
    rw [List.reverse_append, List.reverse_cons]
    simp [List.append_assoc]
  have hdig : ∀ x ∈ (natToChars watershed_fid).reverse, Char.isDigit x = true :=
    fun x hx => natToChars_isDigit watershed_fid x (List.mem_reverse.mp hx)
  have hund : Char.isDigit '_' = false := by decide
  obtain ⟨htw, hdw⟩ := takeWhile_append_sat (natToChars watershed_fid).reverse '_'
    (watershed_basename_of watershed_path).reverse hdig hund
  simp only [_split_watershed_id, hrev, htw, hdw]
  have hne : ((natToChars watershed_fid).reverse.isEmpty) = false := by
    cases he : (natToChars watershed_fid).reverse with
    | nil =>
      exact absurd (List.reverse_eq_nil_iff.mp he) (natToChars_ne_nil watershed_fid)
    | cons a t => rfl
  simp [hne, List.reverse_reverse, charsToNat_natToChars]

/-- Accumulating a payload into the buffers built from a batch extends the
batch. -/
theorem stepState_buffersOf (cfg : StitchConfig) (batch : List Payload)
    (pl : Payload) :
    stepState cfg (buffersOf cfg batch) pl = buffersOf cfg (batch ++ [pl]) := by
  simp [stepState, buffersOf]

/-- The empty buffers are the buffers of the empty batch. -/
theorem buffersOf_nil (cfg : StitchConfig) : buffersOf cfg [] = emptyStitchState :=
  rfl

/-- The number of buffered workspaces equals the batch size. -/
theorem buffersOf_workspace_length (cfg : StitchConfig) (batch : List Payload) :
    (buffersOf cfg batch).workspace_list.length = batch.length := by
  simp [buffersOf]

/-- The five-event block (two merge starts, two joins, the status update) of
a flush is a sublist of the flush's events. -/
theorem flush_block_sublist (cfg : StitchConfig) (st : StitchState) (flush : Nat) :
    List.Sublist
      [Event.mergeStartExport flush st.export_raster_list,
       Event.mergeStartModifiedLoad flush st.modified_load_raster_list,
       Event.joinMergeExport flush, Event.joinMergeModifiedLoad flush,
       Event.statusUpdate flush st.status_update_list]
      (flushEvents cfg st flush) := by
  show List.Sublist
    ([Event.mergeStartExport flush st.export_raster_list,
      Event.mergeStartModifiedLoad flush st.modified_load_raster_list,
      Event.joinMergeExport flush, Event.joinMergeModifiedLoad flush] ++
      [Event.statusUpdate flush st.status_update_list]) (flushEvents cfg st flush)
  exact List.Sublist.append_left (List.sublist_append_right _ _) _

/-- The only status update among a flush's events is the flush's own batched
update. -/
theorem statusUpdate_mem_flushEvents {cfg : StitchConfig} {st : StitchState}
    {f n : Nat} {l : List (String × String × String)}
    (h : Event.statusUpdate n l ∈ flushEvents cfg st f) :
    n = f ∧ l = st.status_update_list := by
  cases hrw : cfg.remove_workspaces <;>
    simp [flushEvents, hrw, List.mem_append, List.mem_map] at h <;>
      exact ⟨h.1, h.2⟩

/-- Structural lemma for the aggregation loop: every batched status update
in the trace belongs to a flush whose two merges were started on exactly the
updated batch's rasters and joined before the update was issued. -/
theorem statusUpdate_flush_block (cfg : StitchConfig) (fs : List String) :
    ∀ (queue : List (Option Payload)) (batch0 : List Payload) (f0 n : Nat)
      (l : List (String × String × String)),
      Event.statusUpdate n l ∈
        (stitch_worker_loop cfg fs queue (buffersOf cfg batch0) f0).1 →
      ∃ batch : List Payload,
        l = batch.map (fun p => (COMPLETE_STATUS, cfg.scenario_id, p.watershed_id)) ∧
        List.Sublist
          [Event.mergeStartExport n (batch.map (fun p => (p.export_raster_path, 1))),
           Event.mergeStartModifiedLoad n
             (batch.map (fun p => (p.modified_load_raster_path, 1))),
           Event.joinMergeExport n, Event.joinMergeModifiedLoad n,
           Event.statusUpdate n l]
          (stitch_worker_loop cfg fs queue (buffersOf cfg batch0) f0).1 := by
  intro queue
  induction queue with
  | nil =>
    intro batch0 f0 n l h
    simp [stitch_worker_loop] at h
  | cons hd tl ih =>
    intro batch0 f0 n l h
    cases hd with
    | none =>
      simp only [stitch_worker_loop] at h ⊢
      rw [List.mem_append] at h
      cases h with
      | inl h =>
        obtain ⟨hn, hl⟩ := statusUpdate_mem_flushEvents h
        subst hn
        refine ⟨batch0, ?_, ?_⟩
        · rw [hl]; rfl
        · have hb := flush_block_sublist cfg (buffersOf cfg batch0) n
          rw [← hl] at hb
          exact hb.trans (List.sublist_append_left _ _)
      | inr h => simp at h
    | some pl =>
      by_cases hmiss : pl.export_raster_path ∉ fs ∨ pl.modified_load_raster_path ∉ fs
      · simp only [stitch_worker_loop, if_pos hmiss] at h
        simp at h
      · simp only [stitch_worker_loop, if_neg hmiss] at h ⊢
        rw [stepState_buffersOf] at h ⊢
        by_cases hlen : (buffersOf cfg (batch0 ++ [pl])).workspace_list.length < 100
        · rw [if_pos hlen] at h ⊢
          exact ih (batch0 ++ [pl]) f0 n l h
        · rw [if_neg hlen] at h ⊢
          rw [List.mem_append] at h
          cases h with
          | inl h =>
            obtain ⟨hn, hl⟩ := statusUpdate_mem_flushEvents h
            subst hn
            refine ⟨batch0 ++ [pl], ?_, ?_⟩
            · rw [hl]; rfl
            · have hb := flush_block_sublist cfg (buffersOf cfg (batch0 ++ [pl])) n
              rw [← hl] at hb
              exact hb.trans (List.sublist_append_left _ _)
          | inr h =>
            obtain ⟨batch, hbl, hsub⟩ := ih [] (f0 + 1) n l h
            exact ⟨batch, hbl, hsub.trans (List.sublist_append_right _ _)⟩

/-- C3: in every aggregator flush, both merges are started on exactly the
rasters of the flushed batch and are joined before the batched COMPLETE
update of that batch is issued: whenever the trace of a `stitch_worker`
call contains a batched status update, the trace contains — in this order —
the export merge start, the modified-load merge start, both merge joins,
and then that status update, all of the same flush, with the merge raster
lists and the COMPLETE update list built from the same batch of payloads.
So no unit is marked COMPLETE in the store before its contribution has been
merged into both mosaics. -/
theorem c3_join_before_complete (cfg : StitchConfig) (fs : List String)
    (queue : List (Option Payload)) (n : Nat)
    (l : List (String × String × String))
    (h : Event.statusUpdate n l ∈ (stitch_worker cfg fs queue).1) :
    ∃ batch : List Payload,
      l = batch.map (fun p => (COMPLETE_STATUS, cfg.scenario_id, p.watershed_id)) ∧
      List.Sublist
        [Event.mergeStartExport n (batch.map (fun p => (p.export_raster_path, 1))),
         Event.mergeStartModifiedLoad n
           (batch.map (fun p => (p.modified_load_raster_path, 1))),
         Event.joinMergeExport n, Event.joinMergeModifiedLoad n,
         Event.statusUpdate n l]
        (stitch_worker cfg fs queue).1 :=
  statusUpdate_flush_block cfg fs queue [] 0 n l h

/-- C3 witness: the theorem applied to a concrete one-payload run; the
status update of flush 0 occurs in the trace, so the ordered block exists. -/
theorem c3_join_before_complete_witness :
    ∃ batch : List Payload,
      [(COMPLETE_STATUS, sampleConfig.scenario_id, samplePayload.watershed_id)] =
        batch.map (fun p => (COMPLETE_STATUS, sampleConfig.scenario_id,
          p.watershed_id)) ∧
      List.Sublist
        [Event.mergeStartExport 0 (batch.map (fun p => (p.export_raster_path, 1))),
         Event.mergeStartModifiedLoad 0
           (batch.map (fun p => (p.modified_load_raster_path, 1))),
         Event.joinMergeExport 0, Event.joinMergeModifiedLoad 0,
         Event.statusUpdate 0
           [(COMPLETE_STATUS, sampleConfig.scenario_id, samplePayload.watershed_id)]]
        (stitch_worker sampleConfig sampleFs [some samplePayload, none]).1 :=
  c3_join_before_complete sampleConfig sampleFs [some samplePayload, none] 0
    [(COMPLETE_STATUS, sampleConfig.scenario_id, samplePayload.watershed_id)]
    (by decide)

/-- A workspace removal among a flush's events names a buffered workspace of
that same flush, and only occurs when reclamation is configured. -/
theorem removeWorkspace_mem_flushEvents {cfg : StitchConfig} {st : StitchState}
    {f n : Nat} {d : String}
    (h : Event.removeWorkspace n d ∈ flushEvents cfg st f) :
    n = f ∧ d ∈ st.workspace_list ∧ cfg.remove_workspaces = true := by
  cases hrw : cfg.remove_workspaces with
  | false => simp [flushEvents, hrw, List.mem_append] at h
  | true =>
    simp only [flushEvents, hrw, if_pos, List.mem_append, List.mem_cons,
      List.mem_map, List.not_mem_nil] at h
    rcases h with ((h | h | h | h | h) | ⟨w, hw, he⟩) | (h | h) <;>
      first
      | cases h
      | exact ⟨(Event.removeWorkspace.injEq _ _ _ _).mp he.symm |>.1.symm ▸ rfl, by
          obtain ⟨hn, hd⟩ := (Event.removeWorkspace.injEq _ _ _ _).mp he.symm
          exact ⟨hd ▸ hw, rfl⟩⟩

/-- When reclamation is configured and `d` is a buffered workspace, the
flush's events contain — in this order — both merge joins, the removal of
`d`, and then the batched status update: removal happens after the merges
but before the COMPLETE update. -/
theorem removal_block_sublist (cfg : StitchConfig) (st : StitchState)
    (flush : Nat) (d : String) (hd : d ∈ st.workspace_list)
    (hrw : cfg.remove_workspaces = true) :
    List.Sublist
      [Event.joinMergeExport flush, Event.joinMergeModifiedLoad flush,
       Event.removeWorkspace flush d, Event.statusUpdate flush st.status_update_list]
      (flushEvents cfg st flush) := by
  have h1 : List.Sublist [Event.joinMergeExport flush,
      Event.joinMergeModifiedLoad flush]
      [Event.mergeStartExport flush st.export_raster_list,
       Event.mergeStartModifiedLoad flush st.modified_load_raster_list,
       Event.joinMergeExport flush, Event.joinMergeModifiedLoad flush] :=
    (List.Sublist.refl _).cons _ |>.cons _
  have h2 : List.Sublist [Event.removeWorkspace flush d]
      (st.workspace_list.map (Event.removeWorkspace flush)) :=
    List.singleton_sublist.mpr (List.mem_map_of_mem _ hd)
  have h3 := List.Sublist.append h1 (List.Sublist.append h2
    (List.Sublist.refl [Event.statusUpdate flush st.status_update_list]))
  simpa [flushEvents, hrw] using h3

/-- Structural lemma for the aggregation loop: every workspace removal in
the trace happens inside its flush after both merge joins and before that
flush's batched COMPLETE update. -/
theorem removal_flush_block (cfg : StitchConfig) (fs : List String) :
    ∀ (queue : List (Option Payload)) (batch0 : List Payload) (f0 n : Nat)
      (d : String),
      Event.removeWorkspace n d ∈
        (stitch_worker_loop cfg fs queue (buffersOf cfg batch0) f0).1 →
      ∃ l : List (String × String × String),
        List.Sublist
          [Event.joinMergeExport n, Event.joinMergeModifiedLoad n,
           Event.removeWorkspace n d, Event.statusUpdate n l]
          (stitch_worker_loop cfg fs queue (buffersOf cfg batch0) f0).1 := by
  intro queue
  induction queue with
  | nil =>
    intro batch0 f0 n d h
    simp [stitch_worker_loop] at h
  | cons hd tl ih =>
    intro batch0 f0 n d h
    cases hd with
    | none =>
      simp only [stitch_worker_loop] at h ⊢
      rw [List.mem_append] at h
      cases h with
      | inl h =>
        obtain ⟨hn, hdm, hrw⟩ := removeWorkspace_mem_flushEvents h
        subst hn
        refine ⟨(buffersOf cfg batch0).status_update_list, ?_⟩
        exact (removal_block_sublist cfg (buffersOf cfg batch0) n d hdm hrw).trans
          (List.sublist_append_left _ _)
      | inr h => simp at h
    | some pl =>
      by_cases hmiss : pl.export_raster_path ∉ fs ∨ pl.modified_load_raster_path ∉ fs
      · simp only [stitch_worker_loop, if_pos hmiss] at h
        simp at h
      · simp only [stitch_worker_loop, if_neg hmiss] at h ⊢
        rw [stepState_buffersOf] at h ⊢
        by_cases hlen : (buffersOf cfg (batch0 ++ [pl])).workspace_list.length < 100
        · rw [if_pos hlen] at h ⊢
          exact ih (batch0 ++ [pl]) f0 n d h
        · rw [if_neg hlen] at h ⊢
          rw [List.mem_append] at h
          cases h with
          | inl h =>
            obtain ⟨hn, hdm, hrw⟩ := removeWorkspace_mem_flushEvents h
            subst hn
            refine ⟨(buffersOf cfg (batch0 ++ [pl])).status_update_list, ?_⟩
            exact (removal_block_sublist cfg (buffersOf cfg (batch0 ++ [pl]))
              n d hdm hrw).trans (List.sublist_append_left _ _)
          | inr h =>
            obtain ⟨l, hsub⟩ := ih [] (f0 + 1) n d h
            exact ⟨l, hsub.trans (List.sublist_append_right _ _)⟩

/-- C2 counterexample: in a concrete run with workspace reclamation
configured (one payload whose artifacts exist, then the terminal marker),
the trace contains a workspace removal that is NOT preceded by the batched
COMPLETE update of its flush — the loop deletes workspaces before issuing
the status update, so "deletion never precedes the COMPLETE update" is
false on the code. -/
theorem c2_counterexample :
    removalOnlyAfterUpdate
      (stitch_worker sampleConfig sampleFs [some samplePayload, none]).1 = false := by
  decide

/-- C2 (amended): in every flush cycle with reclamation configured, each
unit's workspace directory is deleted after both merges of the flush have
been joined but BEFORE the batched status update marking that flush's units
COMPLETE — deletion always precedes the COMPLETE update, not the other way
around. -/
theorem c2_removal_before_complete (cfg : StitchConfig) (fs : List String)
    (queue : List (Option Payload)) (n : Nat) (d : String)
    (h : Event.removeWorkspace n d ∈ (stitch_worker cfg fs queue).1) :
    ∃ l : List (String × String × String),
      List.Sublist
        [Event.joinMergeExport n, Event.joinMergeModifiedLoad n,
         Event.removeWorkspace n d, Event.statusUpdate n l]
        (stitch_worker cfg fs queue).1 :=
  removal_flush_block cfg fs queue [] 0 n d h

/-- C2 witness: the amended theorem applied to the concrete one-payload run
whose trace contains the removal of the sample workspace in flush 0. -/
theorem c2_removal_before_complete_witness :
    ∃ l : List (String × String × String),
      List.Sublist
        [Event.joinMergeExport 0, Event.joinMergeModifiedLoad 0,
         Event.removeWorkspace 0 samplePayload.workspace_dir,
         Event.statusUpdate 0 l]
        (stitch_worker sampleConfig sampleFs [some samplePayload, none]).1 :=
  c2_removal_before_complete sampleConfig sampleFs [some samplePayload, none] 0
    samplePayload.workspace_dir (by decide)

/-- C1 counterexample: a concrete run on an empty filesystem (the payload's
artifacts are missing). The single attempt raises the missing-artifact
error before any merge (its trace is empty), but the retry decorator
re-enters the aggregation loop: with the full 100-attempt budget, the
worker makes a second attempt on the remaining queue and even finishes with
`done` — so the error is retried and never propagates here, contradicting
"raised immediately and never retried (the aggregation loop is not
re-entered after the failure)". -/
theorem c1_counterexample :
    stitch_worker sampleConfig [] [some samplePayload, none] =
      ([], StitchResult.error (missingArtifactMessage sampleConfig [] samplePayload),
       [none]) ∧
    (stitch_worker_with_retry sampleConfig [] 100 [some samplePayload, none]).1 = 2 ∧
    (stitch_worker_with_retry sampleConfig [] 100 [some samplePayload, none]).2.2 =
      StitchResult.done := by
  refine ⟨by decide, by decide, by decide⟩

/-- C1 (amended): when the aggregator pulls a payload naming a missing
artifact it raises immediately — the attempt emits no events at all, so no
merge of that batch (or any batch of the attempt) is performed — but the
error IS retried: the `retrying` decorator (up to 100 attempts) re-invokes
the worker, re-entering the aggregation loop on the remaining queue with
fresh buffers. -/
theorem c1_missing_artifact (cfg : StitchConfig) (fs : List String)
    (st : StitchState) (flush fuel : Nat) (p : Payload)
    (rest : List (Option Payload))
    (h : p.export_raster_path ∉ fs ∨ p.modified_load_raster_path ∉ fs) :
    stitch_worker_loop cfg fs (some p :: rest) st flush =
      ([], StitchResult.error (missingArtifactMessage cfg fs p), rest) ∧
    stitch_worker_with_retry cfg fs (fuel + 2) (some p :: rest) =
      ((stitch_worker_with_retry cfg fs (fuel + 1) rest).1 + 1,
       (stitch_worker_with_retry cfg fs (fuel + 1) rest).2) := by
  have h1 : ∀ (st' : StitchState) (f' : Nat),
      stitch_worker_loop cfg fs (some p :: rest) st' f' =
        ([], StitchResult.error (missingArtifactMessage cfg fs p), rest) := by
    intro st' f'
    simp only [stitch_worker_loop, if_pos h]
  refine ⟨h1 st flush, ?_⟩
  have h2 : stitch_worker cfg fs (some p :: rest) =
      ([], StitchResult.error (missingArtifactMessage cfg fs p), rest) :=
    h1 emptyStitchState 0
  simp only [stitch_worker_with_retry, h2, Nat.succ_ne_zero, if_false,
    List.nil_append]

/-- C1 witness: the amended theorem applied to the concrete run on an empty
filesystem, with one retry attempt remaining after the failure. -/
theorem c1_missing_artifact_witness :
    stitch_worker_loop sampleConfig [] [some samplePayload, none]
        emptyStitchState 0 =
      ([], StitchResult.error (missingArtifactMessage sampleConfig [] samplePayload),
       [none]) ∧
    stitch_worker_with_retry sampleConfig [] 2 [some samplePayload, none] =
      ((stitch_worker_with_retry sampleConfig [] 1 [none]).1 + 1,
       (stitch_worker_with_retry sampleConfig [] 1 [none]).2) :=
  c1_missing_artifact sampleConfig [] emptyStitchState 0 0 samplePayload [none]
    (by decide)

/-- Status-update sizes distribute over trace concatenation. -/
theorem statusUpdateSizes_append (a b : List Event) :
    statusUpdateSizes (a ++ b) = statusUpdateSizes a ++ statusUpdateSizes b := by
  simp [statusUpdateSizes, List.filterMap_append]

/-- Export-merge sizes distribute over trace concatenation. -/
theorem mergeExportSizes_append (a b : List Event) :
    mergeExportSizes (a ++ b) = mergeExportSizes a ++ mergeExportSizes b := by
  simp [mergeExportSizes, List.filterMap_append]

/-- A flush contributes exactly one batched status update, of the size of
its update buffer. -/
theorem statusUpdateSizes_flushEvents (cfg : StitchConfig) (st : StitchState)
    (f : Nat) :
    statusUpdateSizes (flushEvents cfg st f) = [st.status_update_list.length] := by
  cases hrw : cfg.remove_workspaces <;>
    simp [flushEvents, hrw, statusUpdateSizes, List.filterMap_append,
      List.filterMap_map, Function.comp]

/-- A flush launches exactly one export merge, over its whole raster buffer. -/
theorem mergeExportSizes_flushEvents (cfg : StitchConfig) (st : StitchState)
    (f : Nat) :
    mergeExportSizes (flushEvents cfg st f) = [st.export_raster_list.length] := by
  cases hrw : cfg.remove_workspaces <;>
    simp [flushEvents, hrw, mergeExportSizes, List.filterMap_append,
      List.filterMap_map, Function.comp]

/-- Flush-size lemma for the aggregation loop: feeding `ps` and then the
terminal marker into the loop with a partially filled batch (below the
batch size) produces batched status updates and export merges of exactly
the sizes described by `flushSizes`. -/
theorem sizes_loop (cfg : StitchConfig) (fs : List String) :
    ∀ (ps : List Payload) (batch : List Payload) (f : Nat),
      (∀ p ∈ ps, p.export_raster_path ∈ fs ∧ p.modified_load_raster_path ∈ fs) →
      batch.length < 100 →
      statusUpdateSizes
          (stitch_worker_loop cfg fs (ps.map some ++ [none])
            (buffersOf cfg batch) f).1 = flushSizes batch.length ps.length ∧
      mergeExportSizes
          (stitch_worker_loop cfg fs (ps.map some ++ [none])
            (buffersOf cfg batch) f).1 = flushSizes batch.length ps.length := by
  intro ps
  induction ps with
  | nil =>
    intro batch f _ _
    simp only [List.map_nil, List.nil_append, stitch_worker_loop]
    rw [statusUpdateSizes_append, mergeExportSizes_append,
      statusUpdateSizes_flushEvents, mergeExportSizes_flushEvents]
    constructor <;> simp [statusUpdateSizes, mergeExportSizes, buffersOf, flushSizes]
  | cons p ps ih =>
    intro batch f hex hlt
    have hp := hex p (by simp)
    have hex' : ∀ q ∈ ps, q.export_raster_path ∈ fs ∧
        q.modified_load_raster_path ∈ fs := fun q hq => hex q (by simp [hq])
    have hmiss : ¬(p.export_raster_path ∉ fs ∨ p.modified_load_raster_path ∉ fs) := by
      push_neg
      exact hp
    simp only [List.map_cons, List.cons_append, stitch_worker_loop, if_neg hmiss,
      List.append_eq]
    rw [stepState_buffersOf]
    by_cases hlen : (buffersOf cfg (batch ++ [p])).workspace_list.length < 100
    · rw [if_pos hlen]
      have hlt' : (batch ++ [p]).length < 100 := by
        rw [buffersOf_workspace_length] at hlen
        exact hlen
      obtain ⟨h1, h2⟩ := ih (batch ++ [p]) f hex' hlt'
      rw [h1, h2]
      have hfs : flushSizes batch.length (ps.length + 1) =
          flushSizes (batch.length + 1) ps.length := by
        rw [flushSizes]
        rw [if_pos (by simpa using hlt')]
      rw [List.length_cons, hfs]
      simp [List.length_append]
    · rw [if_neg hlen]
      rw [buffersOf_workspace_length] at hlen
      have hb100 : batch.length + 1 = 100 := by
        simp only [List.length_append, List.length_cons, List.length_nil] at hlen
        omega
      obtain ⟨h1, h2⟩ := ih [] (f + 1) hex' (by simp)
      constructor
      · rw [statusUpdateSizes_append, statusUpdateSizes_flushEvents]
        rw [show (buffersOf cfg []) = emptyStitchState from rfl] at h1
        rw [h1]
        have : (buffersOf cfg (batch ++ [p])).status_update_list.length = 100 := by
          simp [buffersOf]
          omega
        rw [this]
        rw [List.length_cons, flushSizes]
        rw [if_neg (by omega)]
        rfl
      · rw [mergeExportSizes_append, mergeExportSizes_flushEvents]
        rw [show (buffersOf cfg []) = emptyStitchState from rfl] at h2
        rw [h2]
        have : (buffersOf cfg (batch ++ [p])).export_raster_list.length = 100 := by
          simp [buffersOf]
          omega
        rw [this]
        rw [List.length_cons, flushSizes]
        rw [if_neg (by omega)]
        rfl

/-- C6: feeding the aggregator 250 payloads (whose artifacts all exist) and
then the terminal marker produces exactly 3 flush cycles of sizes 100, 100
and 50: the trace contains exactly three batched status-update calls, of
those sizes in that order (never one update per payload), and exactly three
export-merge launches of the same sizes. -/
theorem c6_batched_flush (cfg : StitchConfig) (fs : List String)
    (ps : List Payload) (h250 : ps.length = 250)
    (hex : ∀ p ∈ ps, p.export_raster_path ∈ fs ∧ p.modified_load_raster_path ∈ fs) :
    statusUpdateSizes (stitch_worker cfg fs (ps.map some ++ [none])).1 =
      [100, 100, 50] ∧
    mergeExportSizes (stitch_worker cfg fs (ps.map some ++ [none])).1 =
      [100, 100, 50] := by
  obtain ⟨h1, h2⟩ := sizes_loop cfg fs ps [] 0 hex (by simp)
  rw [h250] at h1 h2
  have hw : stitch_worker cfg fs (ps.map some ++ [none]) =
      stitch_worker_loop cfg fs (ps.map some ++ [none]) (buffersOf cfg []) 0 := rfl
  rw [hw]
  rw [h1, h2]
  have : flushSizes ([] : List Payload).length 250 = [100, 100, 50] := by decide
  rw [this]
  exact ⟨rfl, rfl⟩

/-- C6 witness: the theorem applied to 250 copies of the sample payload on
the sample filesystem. -/
theorem c6_batched_flush_witness :
    statusUpdateSizes (stitch_worker sampleConfig sampleFs
        ((List.replicate 250 samplePayload).map some ++ [none])).1 =
      [100, 100, 50] ∧
    mergeExportSizes (stitch_worker sampleConfig sampleFs
        ((List.replicate 250 samplePayload).map some ++ [none])).1 =
      [100, 100, 50] :=
  c6_batched_flush sampleConfig sampleFs (List.replicate 250 samplePayload)
    (List.length_replicate 250 samplePayload)
    (fun p hp => by
      rw [List.eq_of_mem_replicate hp]
      exact ⟨by decide, by decide⟩)
